import Mathlib

/-!
Verification of the worker-pool execution engine and supervisor channel of
py-qgis-wps, shallowly embedded from `src/qywps/executors/executor.py` and
`src/pyqgiswps/poolserver/supervisor.py`.
-/

namespace PyQgisWps

/-- Modelled from the spec: the `STATUS` enum lives in `qywps.app.WPSResponse`,
which is outside the provided sources. The spec gives the order
`ACCEPTED < STARTED < STORE_STATUS < STORE_AND_UPDATE_STATUS < DONE_STATUS = DONE < ERROR`.
A status is terminal iff it is not strictly below `DONE_STATUS`. -/
inductive STATUS where
  | ACCEPTED
  | STARTED
  | STORE_STATUS
  | STORE_AND_UPDATE_STATUS
  | DONE_STATUS
  | ERROR_STATUS
deriving DecidableEq, Repr

/-- Numeric rank of a status member, inducing the spec's order. -/
def STATUS.val : STATUS → Nat
  | .ACCEPTED => 0
  | .STARTED => 1
  | .STORE_STATUS => 2
  | .STORE_AND_UPDATE_STATUS => 3
  | .DONE_STATUS => 4
  | .ERROR_STATUS => 5

/-- Modelled from the spec: Python's `STATUS[name]` enum lookup by member name;
`none` models the `KeyError` raised for an unrecognized (legacy) name.
`DONE` is the spec's alias for `DONE_STATUS`. -/
def parseSTATUS : String → Option STATUS
  | "ACCEPTED" => some .ACCEPTED
  | "STARTED" => some .STARTED
  | "STORE_STATUS" => some .STORE_STATUS
  | "STORE_AND_UPDATE_STATUS" => some .STORE_AND_UPDATE_STATUS
  | "DONE_STATUS" => some .DONE_STATUS
  | "DONE" => some .DONE_STATUS
  | "ERROR_STATUS" => some .ERROR_STATUS
  | _ => none

/-- A record of the status store, as read by `_clean_processes` and
`delete_results`: the dict fields accessed via `rec.get(...)` / `rec[...]`.
An `Option` field is `none` when the key is absent. The `status` field holds
the raw string so that unrecognized legacy values are representable. -/
structure StatusRec where
  uuid : String
  status : Option String
  timestamp : Option Int
  timeout : Option Int
  expiration : Option Int
  pinned : Bool
deriving DecidableEq, Repr

/-- `STATUS[rec['status']]` with both `KeyError` sources collapsed to `none`:
a missing `status` key, or a value that is not a member name. -/
def statusOf (r : StatusRec) : Option STATUS :=
  r.status.bind parseSTATUS

/-- `True` iff `STATUS[rec['status']]` succeeds and is strictly below
`DONE_STATUS` — the guarded comparison inside the `try` blocks of
`_clean_processes` and `delete_results` (a `KeyError` falls to `pass`). -/
def nonTerminalKnown (r : StatusRec) : Bool :=
  match statusOf r with
  | some s => s.val < STATUS.DONE_STATUS.val
  | none => false

/-- Embeds the per-record decision of `PoolExecutor._clean_processes`
(executor.py lines 443-470): `true` iff the tick deletes the record (and its
workdir). Mirrors the control flow: `dangling = timestamp is None`; inside the
`try`, a known non-terminal status recomputes `dangling` from `timeout` and
`continue`s when not dangling; finally the record is deleted iff it is not
pinned and (dangling or `now - timestamp >= expiration`), with `expiration`
defaulting to the configured value. -/
def clean_decision (expire_default : Int) (now : Int) (r : StatusRec) : Bool :=
  match r.timestamp with
  | none => !r.pinned
  | some ts =>
    if nonTerminalKnown r then
      let dangling : Bool :=
        match r.timeout with
        | none => true
        | some tmo => now - ts ≥ tmo
      if dangling then !r.pinned else false
    else
      !r.pinned && (now - ts ≥ r.expiration.getD expire_default)

/-- The executor-visible state touched by cleanup and delete: the status
store as an association list keyed by uuid, and the set of existing per-job
working directories (named by record uuid under the configured root). -/
structure ExecState where
  store : List (String × StatusRec)
  workdirs : List String
deriving DecidableEq, Repr

/-- One tick of the cleanup loop over a snapshot of the store: every record
whose `clean_decision` holds is deleted, and the workdir named by a deleted
record's uuid is removed. -/
def clean_tick (expire_default : Int) (now : Int) (st : ExecState) : ExecState :=
  { store := st.store.filter (fun e => !clean_decision expire_default now e.2)
  , workdirs := st.workdirs.filter
      (fun w => !st.store.any (fun e => clean_decision expire_default now e.2 && e.2.uuid == w)) }

/-- Following the spec's words (C2 refinement target):
`dangling = (timestamp missing) OR (status non-terminal AND (timeout missing
OR now - timestamp ≥ timeout))`. -/
def spec_dangling (now : Int) (r : StatusRec) : Bool :=
  match r.timestamp with
  | none => true
  | some ts =>
    nonTerminalKnown r &&
      (match r.timeout with
       | none => true
       | some tmo => now - ts ≥ tmo)

/-- Following the spec's words (C2 refinement target):
`expired = now - timestamp ≥ (record.expiration OR default_response_expiration)`. -/
def spec_expired (expire_default : Int) (now : Int) (r : StatusRec) : Bool :=
  match r.timestamp with
  | none => false
  | some ts => now - ts ≥ r.expiration.getD expire_default

/-- Following the spec's words (C2 refinement target): skip pinned records,
delete when `dangling OR expired`. -/
def spec_delete (expire_default : Int) (now : Int) (r : StatusRec) : Bool :=
  !r.pinned && (spec_dangling now r || spec_expired expire_default now r)

/-- Result of `PoolExecutor.delete_results`: `notFound` models the raised
`FileNotFoundError`, `refused` the `return False`, `deleted` the `return True`. -/
inductive DeleteOutcome where
  | notFound
  | refused
  | deleted
deriving DecidableEq, Repr

/-- Embeds `PoolExecutor.delete_results` (executor.py lines 226-253): fetch the
record for `u`; raise not-found when absent; return `False` when the status
parses and is strictly below `DONE_STATUS` (a `KeyError` for a legacy status
falls through to `pass`); otherwise remove the workdir named by `rec['uuid']`
(tolerating a missing directory), delete the record for `rec['uuid']`, and
return `True`. -/
def delete_results (st : ExecState) (u : String) : DeleteOutcome × ExecState :=
  match st.store.lookup u with
  | none => (.notFound, st)
  | some rec =>
    if nonTerminalKnown rec then (.refused, st)
    else
      (.deleted,
        { store := st.store.filter (fun e => e.1 ≠ rec.uuid)
        , workdirs := st.workdirs.filter (fun w => w ≠ rec.uuid) })

/-- One effect of the in-worker timeout callback `_timeout_kill`. -/
inductive TimerAction where
  | setStatus (message : String) (st : STATUS)
  | sendSignal (sig : Nat)
deriving DecidableEq, Repr

/-- POSIX `signal.SIGABRT`. -/
def SIGABRT : Nat := 6

/-- Embeds `_timeout_kill` (executor.py lines 475-485): update the response
status to `ERROR_STATUS` with message "Timeout Error", then
`os.kill(os.getpid(), signal.SIGABRT)` — in that order. -/
def timeout_kill : List TimerAction :=
  [.setStatus "Timeout Error" .ERROR_STATUS, .sendSignal SIGABRT]

/-- One `update_status(message, progress, status)` call issued by the worker
envelope. -/
structure StatusUpdate where
  message : String
  progress : Option Nat
  status : STATUS
deriving DecidableEq, Repr

/-- `wps_response.update_status('Task started', 0)` — Modelled from the spec:
`WPSResponse.update_status` is outside the provided sources; the spec states
that this initial update marks the job STARTED at progress 0. -/
def startedUpdate : StatusUpdate := ⟨"Task started", some 0, .STARTED⟩

/-- `update_status('Task finished', 100, STATUS.DONE_STATUS)`. -/
def doneUpdate : StatusUpdate := ⟨"Task finished", some 100, .DONE_STATUS⟩

/-- `update_status(str(e), None, STATUS.ERROR_STATUS)` for a caught
`ProcessException` with message `msg`. -/
def errorUpdate (msg : String) : StatusUpdate := ⟨msg, none, .ERROR_STATUS⟩

/-- Behaviour of the user handler invoked by `_run_process`: clean return,
a raised domain `ProcessException`, or any other exception. -/
inductive HandlerBehavior where
  | ok
  | procExc (msg : String)
  | otherExc (msg : String)
deriving DecidableEq, Repr

/-- Observable effect of `_run_process` in order of execution. -/
inductive Action where
  | chdir (dir : String)
  | update (u : StatusUpdate)
  | armTimer (delay : Int) (callback : List TimerAction)
  | callHandler
  | cancelTimer
  | serializeDoc
deriving DecidableEq, Repr

/-- How `_run_process` terminates: a returned (serialized) response, a plain
`return None` (async mode), a re-raised `ProcessException`, or any other
exception propagating out. -/
inductive RunOutcome where
  | returnedResponse
  | returnedNone
  | raisedProc (msg : String)
  | raisedOther (msg : String)
deriving DecidableEq, Repr

/-- Embeds `PoolExecutor._run_process` (executor.py lines 387-421) as the
trace of its effects plus its outcome: `chdir` to the workdir, the initial
status update, arming the `Timer(timeout, _timeout_kill, ...)`, invoking the
handler; then `DONE` at 100 on clean return or `ERROR` on a
`ProcessException` (re-raised only when `not is_async`); the `finally` block
cancels the timer on every path; only the sync success path serializes the
response document to bytes and returns it. -/
def run_process (h : HandlerBehavior) (is_async : Bool) (timeout : Int) (workdir : String) :
    List Action × RunOutcome :=
  let pre : List Action :=
    [.chdir workdir, .update startedUpdate, .armTimer timeout timeout_kill, .callHandler]
  match h with
  | .ok =>
    if is_async then (pre ++ [.update doneUpdate, .cancelTimer], .returnedNone)
    else (pre ++ [.update doneUpdate, .cancelTimer, .serializeDoc], .returnedResponse)
  | .procExc m =>
    if is_async then (pre ++ [.update (errorUpdate m), .cancelTimer], .returnedNone)
    else (pre ++ [.update (errorUpdate m), .cancelTimer], .raisedProc m)
  | .otherExc m => (pre ++ [.cancelTimer], .raisedOther m)

/-- Outcome of the SYNC `execute` path as seen by the caller: the awaited
response, a raised `NoApplicableCode(message, code)`, or any other exception
propagating unchanged. -/
inductive ExecOutcome where
  | response
  | errorCode (message : String) (code : Nat)
  | uncaught (msg : String)
deriving DecidableEq, Repr

/-- Embeds the SYNC branch of `PoolExecutor.execute` (executor.py lines
362-385): the pool runs `_run_process` with `is_async=False`; `success_cbk`
resolves the future with the response and `_on_error` sets the worker's
exception on it; the caller awaits with `asyncio.wait_for(future, timeout)`.
`resolvedInTime = false` models the future not resolving within `timeout`
(`asyncio.TimeoutError`), mapped to `NoApplicableCode("Execute Timeout",
code=424)`; a `ProcessException` maps to `NoApplicableCode("Process error",
code=424)`; any other exception propagates unchanged. The `returnedNone`
branch is unreachable for `is_async=False`. -/
def execute_sync (h : HandlerBehavior) (resolvedInTime : Bool) (timeout : Int)
    (workdir : String) : ExecOutcome :=
  if !resolvedInTime then .errorCode "Execute Timeout" 424
  else
    match (run_process h false timeout workdir).2 with
    | .returnedResponse => .response
    | .returnedNone => .response
    | .raisedProc _ => .errorCode "Process error" 424
    | .raisedOther m => .uncaught m

/-- A frame verb on the supervisor channel. -/
inductive Verb where
  | BUSY
  | DONE
deriving DecidableEq, Repr

/-- Embeds `Client.notify_busy` (supervisor.py lines 58-63): given the
`_busy` flag, returns the new flag and the frames sent. -/
def notify_busy (busy : Bool) : Bool × List Verb :=
  if !busy then (true, [.BUSY]) else (busy, [])

/-- Embeds `Client.notify_done` (supervisor.py lines 51-56). -/
def notify_done (busy : Bool) : Bool × List Verb :=
  if busy then (false, [.DONE]) else (busy, [])

/-- A call made by worker code on the notifier. -/
inductive ClientCall where
  | busyCall
  | doneCall
deriving DecidableEq, Repr

/-- Dispatch one notifier call on the `_busy` state. -/
def client_step (busy : Bool) : ClientCall → Bool × List Verb
  | .busyCall => notify_busy busy
  | .doneCall => notify_done busy

/-- Run a sequence of notifier calls from a `_busy` state, collecting the
emitted frames in order. A fresh `Client` starts with `_busy = False`. -/
def client_run (busy : Bool) : List ClientCall → Bool × List Verb
  | [] => (busy, [])
  | c :: cs =>
    let s := client_step busy c
    let t := client_run s.1 cs
    (t.1, s.2 ++ t.2)

/-- The opposite verb. -/
def Verb.flip : Verb → Verb
  | .BUSY => .DONE
  | .DONE => .BUSY

/-- `altFrom e fs` holds when `fs` strictly alternates starting with
expected verb `e`. -/
def altFrom : Verb → List Verb → Bool
  | _, [] => true
  | e, f :: fs => (f = e) && altFrom e.flip fs

/-- Expected next verb of `altFrom e` after consuming a list of frames. -/
def nextExpected : Verb → List Verb → Verb
  | e, [] => e
  | e, _ :: fs => nextExpected e.flip fs

/-- The verb the notifier emits next from a given `_busy` state. -/
def expectedVerb (busy : Bool) : Verb := if busy then .DONE else .BUSY

/-- State of `Supervisor._run_async` (supervisor.py lines 93-122): `busy` is
the `self._busy` dict mapping a pid to the id of the timer it tracks;
`pending` is the set of timers armed via `loop.call_later(self._timeout,
kill, pid)` and not yet cancelled, as `(timer id, pid)` pairs — each such
timer's callback is `kill(pid)`; `nextId` supplies fresh timer ids. -/
structure SupState where
  busy : List (Nat × Nat)
  pending : List (Nat × Nat)
  nextId : Nat
deriving DecidableEq, Repr

/-- A received `[pid, verb]` frame. -/
inductive SupFrame where
  | busyFrame (pid : Nat)
  | doneFrame (pid : Nat)
deriving DecidableEq, Repr

/-- Initial supervisor state: empty `_busy` dict, no armed timers. -/
def supInit : SupState := ⟨[], [], 0⟩

/-- Embeds the frame dispatch of `Supervisor._run_async` (supervisor.py
lines 109-115). On `BUSY`, `self._busy[pid] = loop.call_later(...)`: a fresh
timer is armed and the dict entry for `pid` is overwritten — the code does
not cancel the previous timer, so it stays in `pending`. On `DONE`,
`self._busy.pop(pid).cancel()`: the tracked timer is cancelled and the entry
removed; the `KeyError` for an unknown pid is swallowed (`pass`). -/
def supStep (s : SupState) : SupFrame → SupState
  | .busyFrame p =>
    { busy := (p, s.nextId) :: s.busy.filter (fun e => e.1 ≠ p)
    , pending := (s.nextId, p) :: s.pending
    , nextId := s.nextId + 1 }
  | .doneFrame p =>
    match s.busy.lookup p with
    | some tid =>
      { busy := s.busy.filter (fun e => e.1 ≠ p)
      , pending := s.pending.filter (fun t => t.1 ≠ tid)
      , nextId := s.nextId }
    | none => s

/-- Process a sequence of frames from the initial state. -/
def supRun (frames : List SupFrame) : SupState :=
  frames.foldl supStep supInit

/-- Number of armed, uncancelled timers whose callback is `kill p`. -/
def pendingFor (s : SupState) (p : Nat) : Nat :=
  (s.pending.filter (fun t => t.2 = p)).length

/-- Number of entries for pid `p` in the `_busy` dict. -/
def tableEntries (s : SupState) (p : Nat) : Nat :=
  (s.busy.filter (fun e => e.1 = p)).length

/-- Sample record for the C3 witness: STARTED, within its timeout. -/
def sampleInflight : StatusRec :=
  { uuid := "u1", status := some "STARTED", timestamp := some 0,
    timeout := some 100, expiration := none, pinned := false }

/-- Sample state for the C3 witness. -/
def sampleStateC3 : ExecState := ⟨[("u1", sampleInflight)], ["u1"]⟩

/-- Sample record for the C4 witness: terminal, not pinned. -/
def sampleTerminal : StatusRec :=
  { uuid := "u4", status := some "DONE_STATUS", timestamp := some 0,
    timeout := none, expiration := some 50, pinned := false }

/-- Sample record for the C5 witness: a running (non-terminal) job. -/
def sampleRunning : StatusRec :=
  { uuid := "a", status := some "STARTED", timestamp := some 0,
    timeout := some 60, expiration := none, pinned := false }

/-- Sample state for the C5 witness. -/
def sampleStateC5 : ExecState := ⟨[("a", sampleRunning)], ["a"]⟩

/-- Sample record for the C10 witness: an unrecognized legacy status. -/
def sampleLegacy : StatusRec :=
  { uuid := "ul", status := some "PAUSED", timestamp := some 0,
    timeout := some 10, expiration := some 5, pinned := false }

/-- Sample state for the C10 witness. -/
def sampleStateC10 : ExecState := ⟨[("ul", sampleLegacy)], ["ul"]⟩

/-- Sample supervisor state for the C1 witness: pid 1 tracked with timer 0,
that timer pending, next fresh id 1. -/
def sampleSupState : SupState := ⟨[(1, 0)], [(0, 1)], 1⟩

/-- Helper: filtering out a key makes lookup of that key fail. -/
theorem lookup_filter_ne {α β : Type} [DecidableEq α] [BEq α] [LawfulBEq α]
    (l : List (α × β)) (k : α) :
    (l.filter (fun e => e.1 ≠ k)).lookup k = none := by
  induction l with
  | nil => rfl
  | cons e t ih =>
    by_cases h : e.1 = k
    · simpa [List.filter_cons, h] using ih
    · have hk : (k == e.1) = false := beq_eq_false_iff_ne.mpr (fun hh => h hh.symm)
      simp [List.filter_cons, h, List.lookup, hk, ih]
      exact fun a b _ hak hka => hak hka.symm

/-- Claim C2, as stated, is false: the spec's deletion formula
`not pinned AND (dangling OR expired)` would delete a non-pinned,
non-dangling, non-terminal record past its expiration, but
`_clean_processes` hits `continue` for it and keeps it. Concretely: a
STARTED record with `timestamp = 0`, `timeout = 200`, `expiration = 50` at
`now = 100` is kept by the code while the claim's formula deletes it. -/
theorem cleanup_expired_nonterminal_counterexample :
    clean_decision 999 100
        { uuid := "c2", status := some "STARTED", timestamp := some 0,
          timeout := some 200, expiration := some 50, pinned := false } = false ∧
    spec_delete 999 100
        { uuid := "c2", status := some "STARTED", timestamp := some 0,
          timeout := some 200, expiration := some 50, pinned := false } = true := by
  decide

/-- Claim C2 (amended): on each cleanup tick a record is deleted exactly
when it is not pinned and either dangling, or of terminal-or-unrecognized
status and past its expiration (the record's own, else the configured
default). A non-terminal, non-dangling record is skipped even when past its
expiration. A record survives the tick's store exactly when it is not so
deleted. -/
theorem cleanup_decision_characterization (d now : Int) (r : StatusRec)
    (st : ExecState) (k : String) :
    (clean_decision d now r
      = (!r.pinned &&
          (spec_dangling now r || (!nonTerminalKnown r && spec_expired d now r)))) ∧
    ((k, r) ∈ (clean_tick d now st).store ↔
      (k, r) ∈ st.store ∧ clean_decision d now r = false) := by
  constructor
  · cases hts : r.timestamp with
    | none => simp [clean_decision, spec_dangling, hts]
    | some ts =>
      cases hnt : nonTerminalKnown r with
      | true =>
        cases htmo : r.timeout with
        | none => simp [clean_decision, spec_dangling, hts, hnt, htmo]
        | some tmo =>
          by_cases hge : now - ts ≥ tmo
          · simp [clean_decision, spec_dangling, hts, hnt, htmo, hge]
          · simp [clean_decision, spec_dangling, hts, hnt, htmo, hge]
      | false =>
        simp [clean_decision, spec_dangling, spec_expired, hts, hnt]
  · simp [clean_tick, List.mem_filter, Bool.not_eq_true']

/-- Claim C3: a cleanup tick never deletes a record that is non-terminal,
non-dangling (timestamp and timeout present, `now - timestamp < timeout`),
and not pinned; the record and its workdir survive the tick (the workdir
provided the uuid names only this record). -/
theorem cleanup_preserves_inflight (d now ts tmo : Int) (s : STATUS)
    (st : ExecState) (k : String) (r : StatusRec)
    (hmem : (k, r) ∈ st.store)
    (hs : statusOf r = some s)
    (hnt : s.val < STATUS.DONE_STATUS.val)
    (hts : r.timestamp = some ts)
    (htmo : r.timeout = some tmo)
    (hlive : now - ts < tmo)
    (hpin : r.pinned = false)
    (huuid : ∀ e ∈ st.store, e.2.uuid = r.uuid → e.2 = r) :
    (k, r) ∈ (clean_tick d now st).store ∧
    (r.uuid ∈ st.workdirs → r.uuid ∈ (clean_tick d now st).workdirs) := by
  have hterm : nonTerminalKnown r = true := by simp [nonTerminalKnown, hs, hnt]
  have hnd : ¬ (now - ts ≥ tmo) := not_le.mpr hlive
  have hdec : clean_decision d now r = false := by
    simp [clean_decision, hts, hterm, htmo, hnd]
  constructor
  · simp [clean_tick, List.mem_filter, hmem, hdec]
  · intro hw
    simp only [clean_tick, List.mem_filter]
    refine ⟨hw, ?_⟩
    rw [Bool.not_eq_true']
    rw [List.any_eq_false]
    intro e he
    by_cases hu : e.2.uuid = r.uuid
    · have : e.2 = r := huuid e he hu
      simp [this, hdec]
    · simp [hu]

/-- Claim C3 witness: a concrete STARTED record inside its timeout window
survives a cleanup tick. -/
theorem cleanup_preserves_inflight_witness :
    ("u1", sampleInflight) ∈ (clean_tick 10 50 sampleStateC3).store ∧
    (sampleInflight.uuid ∈ sampleStateC3.workdirs →
      sampleInflight.uuid ∈ (clean_tick 10 50 sampleStateC3).workdirs) :=
  cleanup_preserves_inflight 10 50 0 100 .STARTED sampleStateC3 "u1" sampleInflight
    (by decide) (by decide) (by decide) (by decide) (by decide) (by decide)
    (by decide) (by decide)

/-- Claim C4, as stated, is false: the code reads
`rec.get('expiration', expire_default)` — the record's own expiration when
present, never `max` with the default. A terminal record with
`expiration = 50` and default `100` is deleted at `now - timestamp = 60`,
although `60 ≥ max 50 100` is false, so it is not retained until the default
has elapsed. -/
theorem cleanup_expiration_default_counterexample :
    clean_decision 100 60
        { uuid := "c4", status := some "DONE_STATUS", timestamp := some 0,
          timeout := none, expiration := some 50, pinned := false } = true ∧
    ¬ ((60 : Int) - 0 ≥
        max (({ uuid := "c4", status := some "DONE_STATUS", timestamp := some 0,
                timeout := none, expiration := some 50,
                pinned := false : StatusRec }).expiration.getD 100) 100) := by
  decide

/-- Claim C4 (amended): for a terminal, non-pinned record with a timestamp,
a cleanup tick deletes it exactly when `now - timestamp ≥` the record's own
expiration when present, else the configured default — not the max of the
two. -/
theorem cleanup_terminal_expiration (d now ts : Int) (s : STATUS) (r : StatusRec)
    (hs : statusOf r = some s)
    (hterm : ¬ s.val < STATUS.DONE_STATUS.val)
    (hpin : r.pinned = false)
    (hts : r.timestamp = some ts) :
    (clean_decision d now r = true ↔ now - ts ≥ r.expiration.getD d) := by
  have hterm' : nonTerminalKnown r = false := by simp [nonTerminalKnown, hs, hterm]
  simp [clean_decision, hts, hterm', hpin]

/-- Claim C4 (amended) witness: a concrete terminal record with its own
expiration 50 and default 100 at `now = 60`. -/
theorem cleanup_terminal_expiration_witness :
    clean_decision 100 60 sampleTerminal = true ↔
      (60 : Int) - 0 ≥ sampleTerminal.expiration.getD 100 :=
  cleanup_terminal_expiration 100 60 0 .DONE_STATUS sampleTerminal
    (by decide) (by decide) (by decide) (by decide)

/-- Claim C5: `delete_results` raises not-found when no record exists for
the uuid; returns `False` leaving the state unchanged when the record's
status is strictly below `DONE_STATUS`; otherwise it deletes the record,
removes its workdir (tolerating a missing directory: no precondition that
the workdir exists), and returns `True`. -/
theorem delete_results_contract (st : ExecState) (u : String) :
    (st.store.lookup u = none → delete_results st u = (.notFound, st)) ∧
    (∀ r, st.store.lookup u = some r → nonTerminalKnown r = true →
        delete_results st u = (.refused, st)) ∧
    (∀ r, st.store.lookup u = some r → nonTerminalKnown r = false →
        (delete_results st u).1 = .deleted ∧
        (delete_results st u).2.store.lookup r.uuid = none ∧
        r.uuid ∉ (delete_results st u).2.workdirs) := by
  refine ⟨fun h => by simp [delete_results, h], fun r hl ht => ?_, fun r hl ht => ?_⟩
  · simp [delete_results, hl, ht]
  · refine ⟨by simp [delete_results, hl, ht], ?_, ?_⟩
    · simp only [delete_results, hl, ht, Bool.false_eq_true, if_false]
      exact lookup_filter_ne st.store r.uuid
    · simp [delete_results, hl, ht, List.mem_filter]

/-- Claim C5 witness: deleting a running job's results is refused and
changes nothing. -/
theorem delete_results_contract_witness :
    delete_results sampleStateC5 "a" = (.refused, sampleStateC5) :=
  (delete_results_contract sampleStateC5 "a").2.1 sampleRunning (by decide) (by decide)

/-- Claim C10: a record whose status string is not a recognized `STATUS`
member is treated as terminal: `delete_results` proceeds to delete it and
returns `True`, and the cleanup tick skips the non-terminal dangling check,
so (unpinned, with a timestamp) it is deleted exactly on the expiration
criterion. -/
theorem legacy_status_terminal (st : ExecState) (u : String) (r : StatusRec)
    (d now ts : Int)
    (hlook : st.store.lookup u = some r)
    (hlegacy : statusOf r = none)
    (hts : r.timestamp = some ts)
    (hpin : r.pinned = false) :
    (delete_results st u).1 = .deleted ∧
    (clean_decision d now r = true ↔ now - ts ≥ r.expiration.getD d) := by
  have hterm : nonTerminalKnown r = false := by simp [nonTerminalKnown, hlegacy]
  constructor
  · simp [delete_results, hlook, hterm]
  · simp [clean_decision, hts, hterm, hpin]

/-- Claim C10 witness: a record with legacy status string "PAUSED". -/
theorem legacy_status_terminal_witness :
    (delete_results sampleStateC10 "ul").1 = .deleted ∧
    (clean_decision 100 7 sampleLegacy = true ↔
      (7 : Int) - 0 ≥ sampleLegacy.expiration.getD 100) :=
  legacy_status_terminal sampleStateC10 "ul" sampleLegacy 100 7 0
    (by decide) (by decide) (by decide) (by decide)

/-- Claim C6: in SYNC mode, `execute` surfaces exactly two failure cases
with code 424 — "Execute Timeout" when the future is not resolved within
the request timeout, and "Process error" when the handler raised a domain
`ProcessException` — and returns the response on handler success; any other
worker exception propagates unchanged, not as a 424. -/
theorem execute_sync_error_codes (h : HandlerBehavior) (t : Int) (w : String) :
    execute_sync h false t w = .errorCode "Execute Timeout" 424 ∧
    (∀ m, execute_sync (.procExc m) true t w = .errorCode "Process error" 424) ∧
    execute_sync .ok true t w = .response ∧
    (∀ m, execute_sync (.otherExc m) true t w = .uncaught m) := by
  refine ⟨?_, fun m => rfl, rfl, fun m => rfl⟩
  cases h <;> rfl

/-- Claim C7: the worker envelope `_run_process` updates status to STARTED
at progress 0 before invoking the handler; marks DONE at 100 on clean
return (and only then, in sync mode, serializes the response document);
marks ERROR with the domain error's message and re-raises it exactly when
the mode is SYNC; and cancels the in-process timer on every path. -/
theorem run_process_envelope (a : Bool) (t : Int) (w : String)
    (h : HandlerBehavior) (m : String) :
    (∃ rest, (run_process h a t w).1
        = .chdir w :: .update startedUpdate :: .armTimer t timeout_kill
            :: .callHandler :: rest) ∧
    Action.update doneUpdate ∈ (run_process .ok a t w).1 ∧
    (run_process .ok false t w).2 = .returnedResponse ∧
    Action.update (errorUpdate m) ∈ (run_process (.procExc m) a t w).1 ∧
    (run_process (.procExc m) false t w).2 = .raisedProc m ∧
    (run_process (.procExc m) true t w).2 = .returnedNone ∧
    Action.cancelTimer ∈ (run_process h a t w).1 ∧
    (Action.serializeDoc ∈ (run_process h a t w).1 ↔ (a = false ∧ h = .ok)) := by
  refine ⟨?_, ?_, rfl, ?_, rfl, rfl, ?_, ?_⟩
  · cases h <;> cases a <;> exact ⟨_, rfl⟩
  · cases a <;> simp [run_process]
  · cases a <;> simp [run_process]
  · cases h <;> cases a <;> simp [run_process]
  · cases h <;> cases a <;> simp [run_process]

/-- Claim C8: `_run_process` arms the in-worker timer for `timeout` seconds
with callback `_timeout_kill`, which first sets the job's status to ERROR
with message "Timeout Error" and then sends SIGABRT to the worker's own
process, in that order. -/
theorem timeout_kill_order (h : HandlerBehavior) (a : Bool) (t : Int) (w : String) :
    Action.armTimer t timeout_kill ∈ (run_process h a t w).1 ∧
    timeout_kill = [.setStatus "Timeout Error" .ERROR_STATUS, .sendSignal SIGABRT] := by
  refine ⟨?_, rfl⟩
  cases h <;> cases a <;> simp [run_process]

/-- Helper: `altFrom` splits over an append, with the expected verb advanced
by `nextExpected`. -/
theorem altFrom_append (xs ys : List Verb) (e : Verb) :
    altFrom e (xs ++ ys) = (altFrom e xs && altFrom (nextExpected e xs) ys) := by
  induction xs generalizing e with
  | nil => simp [altFrom, nextExpected]
  | cons f fs ih => simp [altFrom, nextExpected, ih, Bool.and_assoc]

/-- Helper: `nextExpected` composes over an append. -/
theorem nextExpected_append (xs ys : List Verb) (e : Verb) :
    nextExpected e (xs ++ ys) = nextExpected (nextExpected e xs) ys := by
  induction xs generalizing e with
  | nil => rfl
  | cons f fs ih => simp [nextExpected, ih]

/-- Helper: from any `_busy` state, the notifier's emitted frames alternate
starting with the verb that state expects, and leave the expectation in
sync with the final state. -/
theorem client_run_alt (cs : List ClientCall) (b : Bool) :
    altFrom (expectedVerb b) (client_run b cs).2 = true ∧
    nextExpected (expectedVerb b) (client_run b cs).2
      = expectedVerb (client_run b cs).1 := by
  induction cs generalizing b with
  | nil => simp [client_run, altFrom, nextExpected]
  | cons c cs ih =>
    have h1 := ih true
    have h0 := ih false
    simp only [expectedVerb, if_true] at h1 h0
    cases b <;> cases c <;>
      simp [client_run, client_step, notify_busy, notify_done, altFrom_append,
        nextExpected_append, altFrom, nextExpected, expectedVerb, Verb.flip] <;>
      first
        | exact h1
        | exact h0

/-- Claim C9: the worker-side notifier sends exactly one BUSY frame only
when idle and exactly one DONE frame only when busy, suppresses duplicate
notifications in the same state, and hence, from the initial idle state,
the emitted frame sequence strictly alternates BUSY, DONE, BUSY, ... -/
theorem notifier_alternates (cs : List ClientCall) :
    notify_busy false = (true, [.BUSY]) ∧
    notify_busy true = (true, []) ∧
    notify_done true = (false, [.DONE]) ∧
    notify_done false = (false, []) ∧
    altFrom .BUSY (client_run false cs).2 = true := by
  refine ⟨rfl, rfl, rfl, rfl, ?_⟩
  have h := (client_run_alt cs false).1
  simpa [expectedVerb] using h

/-- Helper: keeping key `k` after first dropping key `k` yields nothing. -/
theorem filter_eq_of_filter_ne {α β : Type} [DecidableEq α]
    (l : List (α × β)) (k : α) :
    (l.filter (fun e => e.1 ≠ k)).filter (fun e => e.1 = k) = [] := by
  induction l with
  | nil => rfl
  | cons e t ih =>
    by_cases h : e.1 = k <;> simp [List.filter_cons, h, ih]

/-- Helper: one supervisor step keeps at most one `_busy` entry per pid. -/
theorem tableEntries_step_le (s : SupState) (f : SupFrame) (q : Nat)
    (h : tableEntries s q ≤ 1) : tableEntries (supStep s f) q ≤ 1 := by
  have hle : ∀ p : Nat, ((s.busy.filter (fun e => e.1 ≠ p)).filter
        (fun e => e.1 = q)).length ≤ tableEntries s q := by
    intro p
    simp only [tableEntries]
    exact ((List.filter_sublist s.busy).filter _).length_le
  cases f with
  | busyFrame p =>
    by_cases hq : q = p
    · subst hq
      simp [tableEntries, supStep, List.filter_cons, filter_eq_of_filter_ne]
    · have h2 : tableEntries (supStep s (.busyFrame p)) q
          = ((s.busy.filter (fun e => e.1 ≠ p)).filter (fun e => e.1 = q)).length := by
        simp only [tableEntries, supStep, List.filter_cons]
        rw [if_neg (by simp [Ne.symm hq])]
      rw [h2]
      exact le_trans (hle p) h
  | doneFrame p =>
    cases hl : s.busy.lookup p with
    | none => simpa [supStep, hl] using h
    | some tid =>
      have h2 : tableEntries (supStep s (.doneFrame p)) q
          = ((s.busy.filter (fun e => e.1 ≠ p)).filter (fun e => e.1 = q)).length := by
        simp only [tableEntries, supStep, hl]
      rw [h2]
      exact le_trans (hle p) h

/-- Helper: the `_busy` dict of any reachable supervisor state has at most
one entry per pid. -/
theorem tableEntries_supRun_le (frames : List SupFrame) (q : Nat) :
    tableEntries (supRun frames) q ≤ 1 := by
  have main : ∀ (fs : List SupFrame) (s : SupState),
      (∀ q', tableEntries s q' ≤ 1) →
        ∀ q', tableEntries (fs.foldl supStep s) q' ≤ 1 := by
    intro fs
    induction fs with
    | nil => intro s hs q'; simpa using hs q'
    | cons f ft ih =>
      intro s hs q'
      exact ih (supStep s f) (fun q'' => tableEntries_step_le s f q'' (hs q'')) q'
  exact main frames supInit (fun q' => by simp [tableEntries, supInit]) q

/-- Claim C1, as stated, is false: a second BUSY(p) frame overwrites the
`_busy` dict entry but never cancels the replaced timer, so a stale timer
stays pending in the event loop. After the frames BUSY(1), BUSY(1) two
armed, uncancelled kill-timers for pid 1 exist — not at most one. -/
theorem supervisor_stale_timer_counterexample :
    pendingFor (supRun [.busyFrame 1, .busyFrame 1]) 1 = 2 ∧
    ¬ pendingFor (supRun [.busyFrame 1, .busyFrame 1]) 1 ≤ 1 := by
  decide

/-- Claim C1 (amended): the `_busy` dict itself holds at most one entry per
pid in every reachable state; a BUSY(p) frame arms a fresh kill-timer for p
and overwrites the dict entry, but does not cancel the replaced timer,
which remains pending; a DONE(p) frame cancels exactly the tracked timer
and removes the entry when p is known, and is a no-op when p is unknown. -/
theorem supervisor_busy_table_amended (frames : List SupFrame)
    (s : SupState) (p tid q : Nat) :
    tableEntries (supRun frames) q ≤ 1 ∧
    (s.busy.lookup p = none → supStep s (.doneFrame p) = s) ∧
    (s.busy.lookup p = some tid →
        (supStep s (.doneFrame p)).pending
          = s.pending.filter (fun tm => tm.1 ≠ tid) ∧
        (supStep s (.doneFrame p)).busy.lookup p = none) ∧
    (supStep s (.busyFrame p)).pending = (s.nextId, p) :: s.pending ∧
    (supStep s (.busyFrame p)).busy.lookup p = some s.nextId := by
  refine ⟨tableEntries_supRun_le frames q, ?_, ?_, rfl, ?_⟩
  · intro hl
    simp [supStep, hl]
  · intro hl
    refine ⟨by simp [supStep, hl], ?_⟩
    simp only [supStep, hl]
    exact lookup_filter_ne s.busy p
  · simp [supStep, List.lookup]

/-- Claim C1 (amended) witness: concrete frame sequences and states
exercising the table bound, the unknown-pid no-op, the cancel-on-DONE, and
the arm-without-cancel on BUSY. -/
theorem supervisor_busy_table_amended_witness :
    tableEntries (supRun [.busyFrame 1, .doneFrame 1]) 1 ≤ 1 ∧
    supStep supInit (.doneFrame 5) = supInit ∧
    (supStep sampleSupState (.doneFrame 1)).pending
      = sampleSupState.pending.filter (fun tm => tm.1 ≠ 0) ∧
    (supStep sampleSupState (.busyFrame 2)).pending
      = (sampleSupState.nextId, 2) :: sampleSupState.pending :=
  ⟨(supervisor_busy_table_amended [.busyFrame 1, .doneFrame 1] supInit 0 0 1).1,
   (supervisor_busy_table_amended [] supInit 5 0 0).2.1 (by decide),
   ((supervisor_busy_table_amended [] sampleSupState 1 0 0).2.2.1 (by decide)).1,
   (supervisor_busy_table_amended [] sampleSupState 2 0 0).2.2.2.1⟩

end PyQgisWps
